import Mathlib

/-!
Shallow embedding of the budget-and-dayparting enforcement core of the
`budget_system` repository (`apps/budget/models.py`, `service.py`,
`tasks.py`, `utils/helpers.py`).

Money amounts are Django `DecimalField`s (exact fixed-point decimals);
addition and comparison on them are exact, so they are modelled as `ℚ`.
Hours, weekdays and dates are small integers, modelled as `Nat`.
-/

namespace BudgetSystem

/-- `apps/budget/utils/helpers.py`, `is_hour_in_range`:
if `start < end` the range is the half-open interval `[start, end)`;
otherwise the wraparound branch returns `hour >= start or hour < end`. -/
def is_hour_in_range (s e h : Nat) : Bool :=
  if s < e then decide (s ≤ h ∧ h < e)
  else decide (h ≥ s) || decide (h < e)

/-- `Campaign.Status` text choices in `models.py`. -/
inductive Status where
  | active
  | paused
  | completed
  deriving DecidableEq, Repr

/-- The pause-reason strings the core writes into `Campaign.pause_reason`. -/
inductive PauseReason where
  | dailyBudgetExceeded
  | monthlyBudgetExceeded
  | outsideDaypartingHours
  deriving DecidableEq, Repr

/-- A `DaypartingSchedule` row: owning campaign implicit, day of week
(0=Monday..6=Sunday), start/end hour, active flag. -/
structure DaypartingSchedule where
  day_of_week : Nat
  start_hour : Nat
  end_hour : Nat
  is_active : Bool
  deriving DecidableEq, Repr

/-- A `Spend` row as created by `process_ad_spend`: amount, date, hour. -/
structure Spend where
  amount : ℚ
  date : Nat
  hour : Nat
  deriving DecidableEq, Repr

/-- The instant the clock collaborator reports (`timezone.now()`):
its calendar date (abstract identifier), weekday 0..6 and hour 0..23. -/
structure Time where
  date : Nat
  weekday : Nat
  hour : Nat
  deriving DecidableEq, Repr

/-- A `Brand` row: budgets, accumulators and the active flag. -/
structure Brand where
  daily_budget : ℚ
  monthly_budget : ℚ
  daily_spend : ℚ
  monthly_spend : ℚ
  is_active : Bool
  deriving DecidableEq, Repr

/-- A `Campaign` row together with its owned `Spend` and
`DaypartingSchedule` rows (related names `spends`, `dayparting_schedules`). -/
structure Campaign where
  status : Status
  daily_budget : ℚ
  monthly_budget : ℚ
  daily_spend : ℚ
  monthly_spend : ℚ
  is_active : Bool
  pause_reason : Option PauseReason
  spends : List Spend
  dayparting_schedules : List DaypartingSchedule
  deriving DecidableEq, Repr

namespace Brand

/-- `Brand.check_budget_limits` in `models.py`. -/
def check_budget_limits (b : Brand) : Brand :=
  if b.daily_spend ≥ b.daily_budget then { b with is_active := false }
  else if b.monthly_spend ≥ b.monthly_budget then { b with is_active := false }
  else if ¬ b.is_active then { b with is_active := true }
  else b

/-- `Brand.reset_daily_spend`. -/
def reset_daily_spend (b : Brand) : Brand := { b with daily_spend := 0 }

/-- `Brand.reset_monthly_spend`. -/
def reset_monthly_spend (b : Brand) : Brand := { b with monthly_spend := 0 }

end Brand

namespace Campaign

/-- `Campaign.can_resume` in `models.py`: both accumulators strictly
under their budgets. -/
def can_resume (c : Campaign) : Bool :=
  decide (c.daily_spend < c.daily_budget) &&
    decide (c.monthly_spend < c.monthly_budget)

/-- `Campaign.check_budget_limits` in `models.py`: `>=` thresholds, daily
first; otherwise reactivate a paused campaign that can resume. -/
def check_budget_limits (c : Campaign) : Campaign :=
  if c.daily_spend ≥ c.daily_budget then
    { c with status := .paused, pause_reason := some .dailyBudgetExceeded }
  else if c.monthly_spend ≥ c.monthly_budget then
    { c with status := .paused, pause_reason := some .monthlyBudgetExceeded }
  else if c.status = .paused ∧ c.can_resume then
    { c with status := .active, pause_reason := none }
  else c

/-- `Campaign.reset_daily_spend`. -/
def reset_daily_spend (c : Campaign) : Campaign := { c with daily_spend := 0 }

/-- `Campaign.reset_monthly_spend`. -/
def reset_monthly_spend (c : Campaign) : Campaign := { c with monthly_spend := 0 }

/-- `Campaign.is_within_dayparting`: some active schedule matches the
current weekday and contains the current hour. -/
def is_within_dayparting (c : Campaign) (now : Time) : Bool :=
  c.dayparting_schedules.any fun s =>
    s.is_active && decide (s.day_of_week = now.weekday) &&
      is_hour_in_range s.start_hour s.end_hour now.hour

end Campaign

/-- `service.py`, `process_ad_spend`: append one `Spend` row, add the
amount to both accumulators, then the inline strict (`>`) budget check. -/
def process_ad_spend (now : Time) (c : Campaign) (amount : ℚ) : Campaign :=
  let c1 : Campaign :=
    { c with
      spends := c.spends ++ [⟨amount, now.date, now.hour⟩],
      daily_spend := c.daily_spend + amount,
      monthly_spend := c.monthly_spend + amount }
  if c1.daily_spend > c1.daily_budget then
    { c1 with status := .paused, pause_reason := some .dailyBudgetExceeded,
              is_active := false }
  else if c1.monthly_spend > c1.monthly_budget then
    { c1 with status := .paused, pause_reason := some .monthlyBudgetExceeded,
              is_active := false }
  else c1

/-- All brand and campaign rows the persistence collaborator holds. -/
structure DBState where
  brands : List Brand
  campaigns : List Campaign
  deriving DecidableEq, Repr

/-- Per-campaign effect of `tasks.py` `pause_campaigns_exceeding_budget`:
the queryset filter `is_active=True, status=ACTIVE` decides whether
`check_budget_limits` runs on the row. -/
def budgetSweepStep (c : Campaign) : Campaign :=
  if c.is_active ∧ c.status = .active then c.check_budget_limits else c

/-- `tasks.py`, `pause_campaigns_exceeding_budget`: iterates only the
`Campaign` table; `Brand` rows are never read or written by this task. -/
def pause_campaigns_exceeding_budget (s : DBState) : DBState :=
  { s with campaigns := s.campaigns.map budgetSweepStep }

/-- Per-campaign effect of `tasks.py` `reactivate_eligible_campaigns`:
queryset filter `status=PAUSED`, then `can_resume` gates reactivation. -/
def reactivateStep (c : Campaign) : Campaign :=
  if c.status = .paused ∧ c.can_resume then
    { c with status := .active, pause_reason := none }
  else c

/-- `tasks.py`, `reactivate_eligible_campaigns`. -/
def reactivate_eligible_campaigns (s : DBState) : DBState :=
  { s with campaigns := s.campaigns.map reactivateStep }

/-- Per-campaign effect of `tasks.py` `enforce_dayparting`: queryset
filter `is_active=True`; skip when no schedule rows exist; pause outside
the window unless already paused for that reason; inside the window
reactivate only a dayparting-paused campaign that can resume. -/
def daypartingStep (now : Time) (c : Campaign) : Campaign :=
  if ¬ c.is_active then c
  else if c.dayparting_schedules.isEmpty then c
  else if ¬ c.is_within_dayparting now then
    if c.status ≠ .paused ∨ c.pause_reason ≠ some .outsideDaypartingHours then
      { c with status := .paused, pause_reason := some .outsideDaypartingHours }
    else c
  else
    if c.status = .paused ∧ c.pause_reason = some .outsideDaypartingHours ∧
        c.can_resume then
      { c with status := .active, pause_reason := none }
    else c

/-- `tasks.py`, `enforce_dayparting`. -/
def enforce_dayparting (now : Time) (s : DBState) : DBState :=
  { s with campaigns := s.campaigns.map (daypartingStep now) }

/-- `tasks.py`, `reset_daily_budgets`: zero every brand's and campaign's
daily accumulator. -/
def reset_daily_budgets (s : DBState) : DBState :=
  { brands := s.brands.map Brand.reset_daily_spend,
    campaigns := s.campaigns.map Campaign.reset_daily_spend }

/-- `tasks.py`, `reset_monthly_budgets`. -/
def reset_monthly_budgets (s : DBState) : DBState :=
  { brands := s.brands.map Brand.reset_monthly_spend,
    campaigns := s.campaigns.map Campaign.reset_monthly_spend }

/-- The selection predicate of `tasks.py` `simulate_ad_spend`: a campaign
is simulated iff it passes the queryset filter `is_active=True,
status=ACTIVE`, has at least one schedule row, and is within dayparting. -/
def simulateSelects (now : Time) (c : Campaign) : Bool :=
  c.is_active && decide (c.status = .active) &&
    !c.dayparting_schedules.isEmpty && c.is_within_dayparting now

/-- Folding `process_ad_spend` over a list of amounts, as repeated calls
of the recording entry point with no other operation in between. -/
def recordAll (now : Time) (c : Campaign) (amounts : List ℚ) : Campaign :=
  amounts.foldl (fun acc a => process_ad_spend now acc a) c

/-! ### Helper lemmas -/

theorem process_ad_spend_daily_spend (now : Time) (c : Campaign) (a : ℚ) :
    (process_ad_spend now c a).daily_spend = c.daily_spend + a := by
  simp only [process_ad_spend]
  split
  · rfl
  · split <;> rfl

theorem process_ad_spend_monthly_spend (now : Time) (c : Campaign) (a : ℚ) :
    (process_ad_spend now c a).monthly_spend = c.monthly_spend + a := by
  simp only [process_ad_spend]
  split
  · rfl
  · split <;> rfl

theorem process_ad_spend_spends (now : Time) (c : Campaign) (a : ℚ) :
    (process_ad_spend now c a).spends =
      c.spends ++ [⟨a, now.date, now.hour⟩] := by
  simp only [process_ad_spend]
  split
  · rfl
  · split <;> rfl

theorem process_ad_spend_pause_daily (now : Time) (c : Campaign) (a : ℚ)
    (h : c.daily_spend + a > c.daily_budget) :
    (process_ad_spend now c a).status = .paused ∧
      (process_ad_spend now c a).pause_reason = some .dailyBudgetExceeded ∧
      (process_ad_spend now c a).is_active = false := by
  simp only [process_ad_spend]
  rw [if_pos h]
  exact ⟨rfl, rfl, rfl⟩

theorem process_ad_spend_pause_monthly (now : Time) (c : Campaign) (a : ℚ)
    (hd : ¬ c.daily_spend + a > c.daily_budget)
    (hm : c.monthly_spend + a > c.monthly_budget) :
    (process_ad_spend now c a).status = .paused ∧
      (process_ad_spend now c a).pause_reason = some .monthlyBudgetExceeded ∧
      (process_ad_spend now c a).is_active = false := by
  simp only [process_ad_spend]
  rw [if_neg hd, if_pos hm]
  exact ⟨rfl, rfl, rfl⟩

theorem process_ad_spend_no_pause (now : Time) (c : Campaign) (a : ℚ)
    (hd : ¬ c.daily_spend + a > c.daily_budget)
    (hm : ¬ c.monthly_spend + a > c.monthly_budget) :
    process_ad_spend now c a =
      { c with spends := c.spends ++ [⟨a, now.date, now.hour⟩],
               daily_spend := c.daily_spend + a,
               monthly_spend := c.monthly_spend + a } := by
  simp only [process_ad_spend]
  rw [if_neg hd, if_neg hm]

theorem recordAll_daily_spend (now : Time) (amounts : List ℚ) :
    ∀ c : Campaign,
      (recordAll now c amounts).daily_spend = c.daily_spend + amounts.sum := by
  induction amounts with
  | nil => intro c; simp [recordAll]
  | cons a as ih =>
      intro c
      have hstep : recordAll now c (a :: as) =
          recordAll now (process_ad_spend now c a) as := rfl
      rw [hstep, ih, process_ad_spend_daily_spend]
      simp [add_assoc]

theorem recordAll_monthly_spend (now : Time) (amounts : List ℚ) :
    ∀ c : Campaign,
      (recordAll now c amounts).monthly_spend =
        c.monthly_spend + amounts.sum := by
  induction amounts with
  | nil => intro c; simp [recordAll]
  | cons a as ih =>
      intro c
      have hstep : recordAll now c (a :: as) =
          recordAll now (process_ad_spend now c a) as := rfl
      rw [hstep, ih, process_ad_spend_monthly_spend]
      simp [add_assoc]

theorem budgetSweepStep_skip (c : Campaign)
    (h : ¬ (c.is_active = true ∧ c.status = .active)) :
    budgetSweepStep c = c := by
  unfold budgetSweepStep
  rw [if_neg]
  simpa using h

theorem budgetSweepStep_pause_daily (c : Campaign)
    (hact : c.is_active = true) (hst : c.status = .active)
    (h : c.daily_spend ≥ c.daily_budget) :
    budgetSweepStep c =
      { c with status := .paused,
               pause_reason := some .dailyBudgetExceeded } := by
  unfold budgetSweepStep Campaign.check_budget_limits
  rw [if_pos ⟨hact, hst⟩, if_pos h]

theorem budgetSweepStep_pause_monthly (c : Campaign)
    (hact : c.is_active = true) (hst : c.status = .active)
    (hd : ¬ c.daily_spend ≥ c.daily_budget)
    (hm : c.monthly_spend ≥ c.monthly_budget) :
    budgetSweepStep c =
      { c with status := .paused,
               pause_reason := some .monthlyBudgetExceeded } := by
  unfold budgetSweepStep Campaign.check_budget_limits
  rw [if_pos ⟨hact, hst⟩, if_neg hd, if_pos hm]

theorem check_budget_limits_under_active (c : Campaign)
    (hd : ¬ c.daily_spend ≥ c.daily_budget)
    (hm : ¬ c.monthly_spend ≥ c.monthly_budget)
    (hst : c.status = .active) :
    c.check_budget_limits = c := by
  unfold Campaign.check_budget_limits
  rw [if_neg hd, if_neg hm, if_neg]
  rintro ⟨h1, -⟩
  rw [hst] at h1
  exact absurd h1 (by decide)

theorem budgetSweepStep_under (c : Campaign)
    (hact : c.is_active = true) (hst : c.status = .active)
    (hd : ¬ c.daily_spend ≥ c.daily_budget)
    (hm : ¬ c.monthly_spend ≥ c.monthly_budget) :
    budgetSweepStep c = c := by
  unfold budgetSweepStep
  rw [if_pos ⟨hact, hst⟩]
  exact check_budget_limits_under_active c hd hm hst

theorem budgetSweepStep_idem (c : Campaign) :
    budgetSweepStep (budgetSweepStep c) = budgetSweepStep c := by
  by_cases hc : c.is_active = true ∧ c.status = .active
  · by_cases hd : c.daily_spend ≥ c.daily_budget
    · rw [budgetSweepStep_pause_daily c hc.1 hc.2 hd]
      apply budgetSweepStep_skip
      rintro ⟨-, h2⟩
      simp at h2
    · by_cases hm : c.monthly_spend ≥ c.monthly_budget
      · rw [budgetSweepStep_pause_monthly c hc.1 hc.2 hd hm]
        apply budgetSweepStep_skip
        rintro ⟨-, h2⟩
        simp at h2
      · rw [budgetSweepStep_under c hc.1 hc.2 hd hm,
          budgetSweepStep_under c hc.1 hc.2 hd hm]
  · rw [budgetSweepStep_skip c hc, budgetSweepStep_skip c hc]

theorem daypartingStep_inactive (now : Time) (c : Campaign)
    (h : c.is_active = false) :
    daypartingStep now c = c := by
  unfold daypartingStep
  rw [if_pos]
  simp [h]

theorem reactivateStep_is_active (c : Campaign) :
    (reactivateStep c).is_active = c.is_active := by
  unfold reactivateStep
  split <;> rfl

theorem simulateSelects_inactive (now : Time) (c : Campaign)
    (h : c.is_active = false) :
    simulateSelects now c = false := by
  simp [simulateSelects, h]

/-! ### Claim theorems -/

/-- C2: for every `start`, `end`, `hour` in `[0,23]`,
`is_hour_in_range start end hour` is true iff
`(start < end ∧ start ≤ hour < end) ∨ (start ≥ end ∧ (hour ≥ start ∨ hour < end))`;
in particular for `start=22, end=2` the hours 22, 23, 0, 1 are in range and
2 and 14 are not, and for `start == end` every hour is in range. -/
theorem is_hour_in_range_spec :
    (∀ s e h : Fin 24,
      is_hour_in_range s e h = true ↔
        ((s : Nat) < e ∧ (s : Nat) ≤ h ∧ (h : Nat) < e) ∨
          ((e : Nat) ≤ s ∧ ((s : Nat) ≤ h ∨ (h : Nat) < e))) ∧
    is_hour_in_range 22 2 22 = true ∧ is_hour_in_range 22 2 23 = true ∧
    is_hour_in_range 22 2 0 = true ∧ is_hour_in_range 22 2 1 = true ∧
    is_hour_in_range 22 2 2 = false ∧ is_hour_in_range 22 2 14 = false ∧
    (∀ s h : Fin 24, is_hour_in_range s s h = true) := by
  refine ⟨?_, by decide, by decide, by decide, by decide, by decide, by decide, ?_⟩
  · decide
  · decide

/-- C3: one call to `process_ad_spend` appends exactly one `Spend` row and
adds the amount to both accumulators; it pauses with
`DAILY_BUDGET_EXCEEDED` when the updated daily spend strictly exceeds the
daily budget, else with `MONTHLY_BUDGET_EXCEEDED` when the updated monthly
spend strictly exceeds the monthly budget, and otherwise changes nothing
else; after a daily (resp. monthly) reset, the daily (resp. monthly)
accumulator equals the sum of all amounts recorded since. -/
theorem process_ad_spend_spec (now : Time) (c : Campaign) (a : ℚ) :
    ((process_ad_spend now c a).spends.length = c.spends.length + 1) ∧
    ((process_ad_spend now c a).daily_spend = c.daily_spend + a) ∧
    ((process_ad_spend now c a).monthly_spend = c.monthly_spend + a) ∧
    (c.daily_spend + a > c.daily_budget →
      (process_ad_spend now c a).status = .paused ∧
        (process_ad_spend now c a).pause_reason = some .dailyBudgetExceeded) ∧
    (¬ c.daily_spend + a > c.daily_budget →
      c.monthly_spend + a > c.monthly_budget →
      (process_ad_spend now c a).status = .paused ∧
        (process_ad_spend now c a).pause_reason =
          some .monthlyBudgetExceeded) ∧
    (¬ c.daily_spend + a > c.daily_budget →
      ¬ c.monthly_spend + a > c.monthly_budget →
      (process_ad_spend now c a).status = c.status ∧
        (process_ad_spend now c a).pause_reason = c.pause_reason) ∧
    (∀ amounts : List ℚ,
      (recordAll now c.reset_daily_spend amounts).daily_spend =
          amounts.sum ∧
        (recordAll now c.reset_monthly_spend amounts).monthly_spend =
          amounts.sum) := by
  refine ⟨?_, process_ad_spend_daily_spend now c a,
    process_ad_spend_monthly_spend now c a, ?_, ?_, ?_, ?_⟩
  · rw [process_ad_spend_spends]; simp
  · intro h; exact ⟨(process_ad_spend_pause_daily now c a h).1,
      (process_ad_spend_pause_daily now c a h).2.1⟩
  · intro hd hm; exact ⟨(process_ad_spend_pause_monthly now c a hd hm).1,
      (process_ad_spend_pause_monthly now c a hd hm).2.1⟩
  · intro hd hm; rw [process_ad_spend_no_pause now c a hd hm]; exact ⟨rfl, rfl⟩
  · intro amounts
    constructor
    · rw [recordAll_daily_spend]
      simp [Campaign.reset_daily_spend]
    · rw [recordAll_monthly_spend]
      simp [Campaign.reset_monthly_spend]

/-- A sample clock instant used by concrete witnesses. -/
def t0 : Time := ⟨737, 0, 14⟩

/-- A sample active campaign (budgets 50 / 500, spends 45 / 45). -/
def c0 : Campaign :=
  { status := .active, daily_budget := 50, monthly_budget := 500,
    daily_spend := 45, monthly_spend := 45, is_active := true,
    pause_reason := none, spends := [], dayparting_schedules := [] }

/-- Witness for C3 at the concrete input `c0`, amount 10: the spend row is
appended, accumulators move to 55, and the daily strict check pauses. -/
theorem process_ad_spend_spec_witness :
    (process_ad_spend t0 c0 10).spends.length = 1 ∧
      (process_ad_spend t0 c0 10).daily_spend = 55 ∧
      (process_ad_spend t0 c0 10).status = .paused ∧
      (process_ad_spend t0 c0 10).pause_reason =
        some .dailyBudgetExceeded := by
  have h := process_ad_spend_spec t0 c0 10
  refine ⟨h.1, ?_, (h.2.2.2.1 (by norm_num [c0])).1,
    (h.2.2.2.1 (by norm_num [c0])).2⟩
  rw [h.2.1]; norm_num [c0]

/-- An active campaign whose recorded spend lands exactly on the daily
budget while the monthly budget is already blown: daily budget 50, daily
spend 40, monthly budget 10, monthly spend 40. -/
def boundaryMonthlyBlown : Campaign :=
  { status := .active, daily_budget := 50, monthly_budget := 10,
    daily_spend := 40, monthly_spend := 40, is_active := true,
    pause_reason := none, spends := [], dayparting_schedules := [] }

/-- C1 counterexample: recording 10 on `boundaryMonthlyBlown` lands the
daily accumulator exactly on the daily budget (50 = 50), yet the inline
recording path DOES pause the campaign (monthly check fires), refuting
"for every campaign whose daily_spend lands exactly equal to daily_budget,
recording does not pause it". -/
theorem record_at_daily_boundary_can_pause :
    (process_ad_spend t0 boundaryMonthlyBlown 10).daily_spend =
        boundaryMonthlyBlown.daily_budget ∧
      (process_ad_spend t0 boundaryMonthlyBlown 10).status = .paused ∧
      (process_ad_spend t0 boundaryMonthlyBlown 10).pause_reason =
        some .monthlyBudgetExceeded := by
  refine ⟨?_, ?_, ?_⟩ <;> norm_num [process_ad_spend, boundaryMonthlyBlown]

/-- C1 (amended): the inline check is strict (`>`) and the sweep check is
`>=`; hence for every active (is_active, status Active) campaign whose
recorded spend lands daily_spend exactly equal to daily_budget while the
updated monthly_spend does not strictly exceed monthly_budget, recording
does not pause it, but a subsequent run of the budget sweep pauses it with
DAILY_BUDGET_EXCEEDED. -/
theorem record_boundary_then_sweep_pauses (now : Time) (c : Campaign)
    (a : ℚ) (hact : c.is_active = true) (hst : c.status = .active)
    (hd : c.daily_spend + a = c.daily_budget)
    (hm : ¬ c.monthly_spend + a > c.monthly_budget) :
    (process_ad_spend now c a).status = .active ∧
      (process_ad_spend now c a).is_active = true ∧
      (process_ad_spend now c a).pause_reason = c.pause_reason ∧
      (budgetSweepStep (process_ad_spend now c a)).status = .paused ∧
      (budgetSweepStep (process_ad_spend now c a)).pause_reason =
        some .dailyBudgetExceeded := by
  have hd' : ¬ c.daily_spend + a > c.daily_budget := by
    rw [hd]; exact lt_irrefl _
  have heq := process_ad_spend_no_pause now c a hd' hm
  have hact' : (process_ad_spend now c a).is_active = true := by
    rw [heq]; exact hact
  have hst' : (process_ad_spend now c a).status = .active := by
    rw [heq]; exact hst
  have hge : (process_ad_spend now c a).daily_spend ≥
      (process_ad_spend now c a).daily_budget := by
    rw [heq]
    exact le_of_eq hd.symm
  rw [budgetSweepStep_pause_daily _ hact' hst' hge]
  refine ⟨hst', hact', ?_, rfl, rfl⟩
  rw [heq]

/-- An active campaign used to witness the amended C1: daily budget 50,
daily spend 40, monthly budget 500, monthly spend 40. -/
def boundaryHealthy : Campaign :=
  { status := .active, daily_budget := 50, monthly_budget := 500,
    daily_spend := 40, monthly_spend := 40, is_active := true,
    pause_reason := none, spends := [], dayparting_schedules := [] }

/-- Witness for the amended C1 at `boundaryHealthy` with amount 10. -/
theorem record_boundary_then_sweep_pauses_witness :
    (process_ad_spend t0 boundaryHealthy 10).status = .active ∧
      (process_ad_spend t0 boundaryHealthy 10).is_active = true ∧
      (process_ad_spend t0 boundaryHealthy 10).pause_reason =
        boundaryHealthy.pause_reason ∧
      (budgetSweepStep (process_ad_spend t0 boundaryHealthy 10)).status =
        .paused ∧
      (budgetSweepStep
          (process_ad_spend t0 boundaryHealthy 10)).pause_reason =
        some .dailyBudgetExceeded :=
  record_boundary_then_sweep_pauses t0 boundaryHealthy 10 rfl rfl
    (by norm_num [boundaryHealthy]) (by norm_num [boundaryHealthy])

/-- C8: the budget sweep is idempotent — running
`pause_campaigns_exceeding_budget` twice in a row with no spend in
between yields the same database state as running it once. -/
theorem pause_campaigns_exceeding_budget_idempotent (s : DBState) :
    pause_campaigns_exceeding_budget (pause_campaigns_exceeding_budget s) =
      pause_campaigns_exceeding_budget s := by
  unfold pause_campaigns_exceeding_budget
  cases s with
  | mk brands campaigns =>
      simp only [List.map_map]
      congr 1
      apply List.map_congr_left
      intro c _
      exact budgetSweepStep_idem c

/-- C9: a campaign with zero `DaypartingSchedule` rows is skipped whole by
the dayparting sweep (`continue` before any check), so its row — in
particular status and pause_reason — is unchanged regardless of the
current day and hour. -/
theorem dayparting_skips_unscheduled (now : Time) (c : Campaign)
    (h : c.dayparting_schedules = []) :
    daypartingStep now c = c := by
  simp [daypartingStep, h]

/-- Witness for C9: `c0` has no schedules and is left unchanged. -/
theorem dayparting_skips_unscheduled_witness :
    daypartingStep t0 c0 = c0 :=
  dayparting_skips_unscheduled t0 c0 rfl

/-- A campaign budget-paused by the periodic sweep: the sweep writes only
`status` and `pause_reason`, so `is_active` is still true; it has one
active Monday 9–17 schedule. -/
def sweepBudgetPaused : Campaign :=
  { status := .paused, daily_budget := 50, monthly_budget := 500,
    daily_spend := 50, monthly_spend := 45, is_active := true,
    pause_reason := some .dailyBudgetExceeded, spends := [],
    dayparting_schedules := [⟨0, 9, 17, true⟩] }

/-- Monday 20:00, outside the 9–17 window. -/
def t4 : Time := ⟨737, 0, 20⟩

/-- C4 counterexample: `sweepBudgetPaused` is paused with
DAILY_BUDGET_EXCEEDED, yet the dayparting sweep overwrites its
pause_reason with OUTSIDE_DAYPARTING_HOURS because the campaign still has
`is_active = true` and is outside its window. -/
theorem dayparting_overwrites_budget_pause :
    sweepBudgetPaused.status = .paused ∧
      sweepBudgetPaused.pause_reason = some .dailyBudgetExceeded ∧
      (daypartingStep t4 sweepBudgetPaused).pause_reason =
        some .outsideDaypartingHours := by
  refine ⟨rfl, rfl, ?_⟩
  decide

/-- C4 (amended): a campaign paused for a budget reason by the inline
recording path — which also clears `is_active` — is left entirely
unchanged by the dayparting sweep; only budget-paused campaigns whose
`is_active` flag is still true can have their reason overwritten. -/
theorem dayparting_leaves_inline_budget_paused (now : Time) (c : Campaign)
    (hp : c.pause_reason = some .dailyBudgetExceeded ∨
      c.pause_reason = some .monthlyBudgetExceeded)
    (hst : c.status = .paused) (ha : c.is_active = false) :
    daypartingStep now c = c :=
  daypartingStep_inactive now c ha

/-- A campaign paused by the inline recording path: `is_active = false`,
reason DAILY_BUDGET_EXCEEDED, one active Monday 9–17 schedule. -/
def inlineBudgetPaused : Campaign :=
  { status := .paused, daily_budget := 50, monthly_budget := 500,
    daily_spend := 60, monthly_spend := 60, is_active := false,
    pause_reason := some .dailyBudgetExceeded, spends := [],
    dayparting_schedules := [⟨0, 9, 17, true⟩] }

/-- Witness for the amended C4 at `inlineBudgetPaused`, Monday 20:00. -/
theorem dayparting_leaves_inline_budget_paused_witness :
    daypartingStep t4 inlineBudgetPaused = inlineBudgetPaused :=
  dayparting_leaves_inline_budget_paused t4 inlineBudgetPaused
    (Or.inl rfl) rfl rfl

/-- C10: the reactivation sweep writes only `status` and `pause_reason`,
never `is_active`; the inline recording path clears `is_active` when it
pauses; hence a campaign paused inline and later reactivated is Active
with no pause reason but still has `is_active = false`, and both the
dayparting sweep (queryset filter `is_active=True`) and the simulation
driver's selection skip it. -/
theorem reactivate_never_writes_is_active (now : Time) (c : Campaign)
    (a : ℚ) :
    ((reactivateStep c).is_active = c.is_active) ∧
      (c.daily_spend + a > c.daily_budget →
        (process_ad_spend now c a).is_active = false) ∧
      (c.is_active = false →
        (c.status = .paused → c.can_resume = true →
          (reactivateStep c).status = .active ∧
            (reactivateStep c).pause_reason = none ∧
            (reactivateStep c).is_active = false) ∧
          daypartingStep now (reactivateStep c) = reactivateStep c ∧
          simulateSelects now (reactivateStep c) = false) := by
  refine ⟨reactivateStep_is_active c, ?_, ?_⟩
  · intro h
    exact (process_ad_spend_pause_daily now c a h).2.2
  · intro ha
    have ha' : (reactivateStep c).is_active = false := by
      rw [reactivateStep_is_active]; exact ha
    refine ⟨?_, daypartingStep_inactive now _ ha',
      simulateSelects_inactive now _ ha'⟩
    intro hst hres
    unfold reactivateStep
    rw [if_pos ⟨hst, hres⟩]
    exact ⟨rfl, rfl, ha⟩

/-- A campaign paused by the inline path whose accumulators were since
reset, so it can resume. -/
def inlinePausedResumable : Campaign :=
  { status := .paused, daily_budget := 50, monthly_budget := 500,
    daily_spend := 0, monthly_spend := 0, is_active := false,
    pause_reason := some .dailyBudgetExceeded, spends := [],
    dayparting_schedules := [⟨0, 9, 17, true⟩] }

/-- Witness for C10 at `inlinePausedResumable`. -/
theorem reactivate_never_writes_is_active_witness :
    (reactivateStep inlinePausedResumable).status = .active ∧
      (reactivateStep inlinePausedResumable).pause_reason = none ∧
      (reactivateStep inlinePausedResumable).is_active = false ∧
      daypartingStep t0 (reactivateStep inlinePausedResumable) =
        reactivateStep inlinePausedResumable ∧
      simulateSelects t0 (reactivateStep inlinePausedResumable) = false := by
  have h := reactivate_never_writes_is_active t0 inlinePausedResumable 0
  have h3 := h.2.2 rfl
  have h1 := h3.1 rfl
    (by norm_num [Campaign.can_resume, inlinePausedResumable])
  exact ⟨h1.1, h1.2.1, h1.2.2, h3.2.1, h3.2.2⟩

/-- A Completed campaign whose accumulators are over budget and whose
`is_active` flag is still true. -/
def completedOverBudget : Campaign :=
  { status := .completed, daily_budget := 50, monthly_budget := 500,
    daily_spend := 100, monthly_spend := 100, is_active := true,
    pause_reason := none, spends := [], dayparting_schedules := [] }

/-- C5 counterexample: recording even a zero spend on a Completed
campaign whose daily accumulator strictly exceeds its budget moves its
status from Completed to Paused — `process_ad_spend` never inspects the
status. -/
theorem record_moves_completed_to_paused :
    completedOverBudget.status = .completed ∧
      (process_ad_spend t0 completedOverBudget 0).status = .paused := by
  refine ⟨rfl, ?_⟩
  norm_num [process_ad_spend, completedOverBudget]

/-- C5 (amended): no core operation ever sets a campaign's status to
Completed, and the budget sweep, the reactivation sweep and the resets
never change a Completed campaign; but spend recording and the
dayparting sweep do not inspect the Completed status and can pause such a
campaign. -/
theorem completed_terminal_amended (now : Time) (c : Campaign) (a : ℚ) :
    (c.status = .completed →
      budgetSweepStep c = c ∧ reactivateStep c = c ∧
        c.reset_daily_spend.status = .completed ∧
        c.reset_monthly_spend.status = .completed) ∧
      ((process_ad_spend now c a).status = .completed →
        c.status = .completed) ∧
      ((budgetSweepStep c).status = .completed → c.status = .completed) ∧
      ((reactivateStep c).status = .completed → c.status = .completed) ∧
      ((daypartingStep now c).status = .completed →
        c.status = .completed) := by
  refine ⟨?_, ?_, ?_, ?_, ?_⟩
  · intro hc
    refine ⟨?_, ?_, hc, hc⟩
    · apply budgetSweepStep_skip
      rintro ⟨-, h⟩
      rw [hc] at h
      exact absurd h (by decide)
    · unfold reactivateStep
      rw [if_neg]
      rintro ⟨h, -⟩
      rw [hc] at h
      exact absurd h (by decide)
  · intro h
    simp only [process_ad_spend] at h
    split at h
    · simp at h
    · split at h
      · simp at h
      · exact h
  · intro h
    unfold budgetSweepStep at h
    split at h
    · unfold Campaign.check_budget_limits at h
      split at h
      · simp at h
      · split at h
        · simp at h
        · split at h
          · simp at h
          · exact h
    · exact h
  · intro h
    unfold reactivateStep at h
    split at h
    · simp at h
    · exact h
  · intro h
    unfold daypartingStep at h
    split at h
    · exact h
    · split at h
      · exact h
      · split at h
        · split at h
          · simp at h
          · exact h
        · split at h
          · simp at h
          · exact h

/-- A Completed campaign with empty accumulators. -/
def completedIdle : Campaign :=
  { status := .completed, daily_budget := 50, monthly_budget := 500,
    daily_spend := 0, monthly_spend := 0, is_active := false,
    pause_reason := none, spends := [], dayparting_schedules := [] }

/-- Witness for the amended C5 at `completedIdle`. -/
theorem completed_terminal_amended_witness :
    budgetSweepStep completedIdle = completedIdle ∧
      reactivateStep completedIdle = completedIdle ∧
      completedIdle.reset_daily_spend.status = .completed ∧
      completedIdle.reset_monthly_spend.status = .completed := by
  have h := (completed_terminal_amended t0 completedIdle 0).1 rfl
  exact h

/-- A brand whose daily accumulator is at double its daily budget. -/
def overBudgetBrand : Brand :=
  { daily_budget := 50, monthly_budget := 500, daily_spend := 100,
    monthly_spend := 0, is_active := true }

/-- A database holding only `overBudgetBrand`. -/
def brandOnlyState : DBState := ⟨[overBudgetBrand], []⟩

/-- C6 counterexample: the budget sweep task iterates only the Campaign
table, so a brand whose daily spend is at or above its daily budget is
left active and entirely untouched, refuting "for every entity with
budget tracking (every brand and every campaign)". -/
theorem budget_sweep_ignores_brands :
    overBudgetBrand.daily_spend ≥ overBudgetBrand.daily_budget ∧
      overBudgetBrand.is_active = true ∧
      pause_campaigns_exceeding_budget brandOnlyState = brandOnlyState := by
  refine ⟨by norm_num [overBudgetBrand], rfl, rfl⟩

/-- C6 (amended): one run of the budget sweep touches only campaigns
(brand rows are unchanged), and among campaigns only those with
`is_active` true and status Active: such a campaign is paused with
DAILY_BUDGET_EXCEEDED when `daily_spend >= daily_budget` (checked first),
else with MONTHLY_BUDGET_EXCEEDED when `monthly_spend >= monthly_budget`,
else left unchanged; the sweep never reactivates anything, and campaigns
outside the filter are unchanged. -/
theorem budget_sweep_campaigns_only (s : DBState) (c : Campaign) :
    (pause_campaigns_exceeding_budget s).brands = s.brands ∧
      (pause_campaigns_exceeding_budget s).campaigns =
        s.campaigns.map budgetSweepStep ∧
      (¬ (c.is_active = true ∧ c.status = .active) →
        budgetSweepStep c = c) ∧
      (c.is_active = true → c.status = .active →
        (c.daily_spend ≥ c.daily_budget →
          budgetSweepStep c =
            { c with status := .paused,
                     pause_reason := some .dailyBudgetExceeded }) ∧
          (¬ c.daily_spend ≥ c.daily_budget →
            c.monthly_spend ≥ c.monthly_budget →
            budgetSweepStep c =
              { c with status := .paused,
                       pause_reason := some .monthlyBudgetExceeded }) ∧
          (¬ c.daily_spend ≥ c.daily_budget →
            ¬ c.monthly_spend ≥ c.monthly_budget →
            budgetSweepStep c = c)) := by
  refine ⟨rfl, rfl, budgetSweepStep_skip c, ?_⟩
  intro hact hst
  exact ⟨budgetSweepStep_pause_daily c hact hst,
    budgetSweepStep_pause_monthly c hact hst,
    budgetSweepStep_under c hact hst⟩

/-- An active campaign over its daily budget (60 of 50 spent). -/
def overDailyCampaign : Campaign :=
  { status := .active, daily_budget := 50, monthly_budget := 500,
    daily_spend := 60, monthly_spend := 60, is_active := true,
    pause_reason := none, spends := [], dayparting_schedules := [] }

/-- Witness for the amended C6 at `overDailyCampaign`. -/
theorem budget_sweep_campaigns_only_witness :
    budgetSweepStep overDailyCampaign =
      { overDailyCampaign with
        status := .paused,
        pause_reason := some .dailyBudgetExceeded } := by
  have h := budget_sweep_campaigns_only brandOnlyState overDailyCampaign
  exact (h.2.2.2 rfl rfl).1 (by norm_num [overDailyCampaign])

/-- C7: the code performs no validation of the spend amount — on a
negative amount `process_ad_spend` still appends a Spend row and
decreases both accumulators, where the claim (and §7 of the spec)
requires the call to be rejected before any state mutation. -/
theorem negative_amount_mutates_state :
    (process_ad_spend t0 c0 (-3)).spends.length = c0.spends.length + 1 ∧
      (process_ad_spend t0 c0 (-3)).daily_spend = c0.daily_spend - 3 ∧
      (process_ad_spend t0 c0 (-3)).monthly_spend =
        c0.monthly_spend - 3 := by
  refine ⟨?_, ?_, ?_⟩
  · rw [process_ad_spend_spends]; simp
  · rw [process_ad_spend_daily_spend]; ring
  · rw [process_ad_spend_monthly_spend]; ring

end BudgetSystem
